import Mathlib

/-!
Shallow embedding of the live speech-transcription WebSocket client
implemented by the React hook `useTranscriptionWebSocket` in
`src/components/notes/MarkdownEditor.tsx`.

The embedding models the hook's state (connection refs, status, error,
realtime preview, committed sentences and transcript, pending debounce
timer) as a record, and each event handler (`connect`, `disconnect`,
`sendStopCommand`, the unmount cleanup, the two sockets' open/close/error
handlers, `ws.onmessage`, and the debounce timer's callback) as a state
transformer translated from the source.

Conventions:
- A WebSocket handle is a `Socket` with an identity, a readyState, and the
  `status` value captured by the closures of the handlers attached to it
  (the React `useCallback` closes over the render-time `status`, so the
  handlers installed by a `connect()` invocation read the status as it was
  when `connect()` was invoked, not the current one).
- `onProcessSentence` is assumed registered; each call is recorded in
  `emissions`, in order.
- A raw inbound payload is `Option BackendMessage`: `none` stands for a
  payload on which `JSON.parse` throws (malformed), caught and logged by
  the handler's try/catch.
- `toasts` records user-visible notifications, `sentLog` the messages sent
  on the control connection.
-/

inductive TranscriptionWSStatus where
  | disconnected
  | connecting
  | connected
  | error
  deriving DecidableEq, Repr

inductive WSReadyState where
  | CONNECTING
  | OPEN
  | CLOSING
  | CLOSED
  deriving DecidableEq, Repr

structure Socket where
  id : Nat
  readyState : WSReadyState
  capturedStatus : TranscriptionWSStatus
  deriving DecidableEq, Repr

/-- Inbound message shape: `interface BackendMessage \x7b type: string; text?: string \x7d`. -/
structure BackendMessage where
  type : String
  text : Option String
  deriving DecidableEq, Repr

structure HookState where
  wsRef : Option Socket
  controlWsRef : Option Socket
  status : TranscriptionWSStatus
  error : Option String
  realtimeText : String
  fullSentences : List String
  fullTranscript : String
  debounceTimerRef : Option String
  emissions : List String
  toasts : List String
  sentLog : List String
  nextId : Nat
  deriving DecidableEq, Repr

/-- State right after mounting the hook: all `useState` initial values. -/
def initialState : HookState :=
  { wsRef := none, controlWsRef := none, status := .disconnected, error := none
    realtimeText := "", fullSentences := [], fullTranscript := ""
    debounceTimerRef := none, emissions := [], toasts := [], sentLog := [], nextId := 0 }

/-- `JSON.stringify(\x7b type: 'command', command: 'stop' \x7d)`. -/
def stopCommand : String := "\x7b\"type\":\"command\",\"command\":\"stop\"\x7d"

/-- The guard `ref.current && ref.current.readyState === WebSocket.OPEN`. -/
def refIsOpen (r : Option Socket) : Bool :=
  match r with
  | some s => s.readyState == .OPEN
  | none => false

/-- `sendStopCommand`: if the control socket is OPEN, send the stop command
(then resolve after a 100ms delay); otherwise resolve immediately. -/
def sendStopCommand (st : HookState) : HookState :=
  if refIsOpen st.controlWsRef then
    { st with sentLog := st.sentLog ++ [stopCommand] }
  else st

/-- `connect`: return early if the data socket or the control socket is OPEN;
otherwise set status to connecting, clear the error, and open the control
socket first, then the data socket. The handlers attached to both sockets
close over the `status` value of the invoking render. -/
def connect (st : HookState) : HookState :=
  if refIsOpen st.wsRef then st
  else if refIsOpen st.controlWsRef then st
  else
    let captured := st.status
    let controlWs : Socket :=
      { id := st.nextId, readyState := .CONNECTING, capturedStatus := captured }
    let dataWs : Socket :=
      { id := st.nextId + 1, readyState := .CONNECTING, capturedStatus := captured }
    { st with
      status := .connecting
      error := none
      controlWsRef := some controlWs
      wsRef := some dataWs
      nextId := st.nextId + 2 }

/-- `controlWs.onopen`: only logs; the environment moves the socket to OPEN. -/
def controlOnOpen (st : HookState) : HookState :=
  match st.controlWsRef with
  | some c => { st with controlWsRef := some { c with readyState := .OPEN } }
  | none => st

/-- `controlWs.onclose`: `if (status !== 'disconnected') setStatus('disconnected')`,
where `status` is the closure-captured value, not the current one. -/
def controlOnClose (st : HookState) : HookState :=
  match st.controlWsRef with
  | some c =>
    let st1 := { st with controlWsRef := some { c with readyState := .CLOSED } }
    if c.capturedStatus ≠ .disconnected then { st1 with status := .disconnected } else st1
  | none => st

/-- `controlWs.onerror`: set status to error, set the error string, toast. -/
def controlOnError (st : HookState) : HookState :=
  match st.controlWsRef with
  | some _ =>
    { st with
      status := .error
      error := some "Failed to connect to transcription control service."
      toasts := st.toasts ++
        ["Failed to connect to the transcription control service. Please try again."] }
  | none => st

/-- `ws.onopen` (data socket): `setStatus('connected')`. -/
def dataOnOpen (st : HookState) : HookState :=
  match st.wsRef with
  | some w => { st with wsRef := some { w with readyState := .OPEN }, status := .connected }
  | none => st

/-- `ws.onclose` (data socket): same stale-closure status check as the control one. -/
def dataOnClose (st : HookState) : HookState :=
  match st.wsRef with
  | some w =>
    let st1 := { st with wsRef := some { w with readyState := .CLOSED } }
    if w.capturedStatus ≠ .disconnected then { st1 with status := .disconnected } else st1
  | none => st

/-- `ws.onerror` (data socket): set status to error, set the error string, toast. -/
def dataOnError (st : HookState) : HookState :=
  match st.wsRef with
  | some _ =>
    { st with
      status := .error
      error := some "Failed to connect to transcription service."
      toasts := st.toasts ++
        ["Failed to connect to the transcription service. Please try again."] }
  | none => st

def sentenceTerminators : List String := [".", "?", "!"]

/-- JS `String.prototype.trim`: strip leading and trailing whitespace.
Implemented over the character list so that it is kernel-computable. -/
def jsTrim (s : String) : String :=
  String.mk (((s.data.dropWhile Char.isWhitespace).reverse.dropWhile Char.isWhitespace).reverse)

/-- JS `String.prototype.endsWith` for a one-or-more character suffix. -/
def jsEndsWith (s suffix : String) : Bool :=
  suffix.data.isSuffixOf s.data

/-- `ws.onmessage`: parse (a `none` payload is a parse failure, caught and
logged); on 'completed'/'fullSentence' clear the pending timer, append the
raw text to `fullSentences` and `' ' + text` to `fullTranscript`, and call
`onProcessSentence` when the text is truthy; on 'realtime' replace the
preview, and if the trimmed text is non-empty, ends in a sentence
terminator, and no timer is pending, arm the 750ms timer, whose callback
closes over the trimmed text computed here; any other type does nothing. -/
def onMessage (st : HookState) (payload : Option BackendMessage) : HookState :=
  match payload with
  | none => st
  | some data =>
    if data.type = "completed" ∨ data.type = "fullSentence" then
      let st1 := { st with debounceTimerRef := none }
      let newSentence := data.text.getD ""
      let st2 := { st1 with fullSentences := st1.fullSentences ++ [newSentence]
                            fullTranscript := st1.fullTranscript ++ " " ++ newSentence }
      if newSentence ≠ "" then { st2 with emissions := st2.emissions ++ [newSentence] }
      else st2
    else if data.type = "realtime" then
      let currentText := data.text.getD ""
      let st1 := { st with realtimeText := currentText }
      let trimmedText := jsTrim currentText
      if decide (trimmedText.length > 0)
          && sentenceTerminators.any (fun p => jsEndsWith trimmedText p) then
        if st1.debounceTimerRef = none then
          { st1 with debounceTimerRef := some trimmedText }
        else st1
      else st1
    else st

/-- The debounce timer's callback: call `onProcessSentence` with the
closure-captured `trimmedText` and clear the timer ref. -/
def debounceTimerFire (st : HookState) : HookState :=
  match st.debounceTimerRef with
  | some trimmedText =>
    { st with emissions := st.emissions ++ [trimmedText], debounceTimerRef := none }
  | none => st

/-- `disconnect`: close and null both refs, clear any pending timer, set
status to disconnected. -/
def disconnect (st : HookState) : HookState :=
  let st1 :=
    match st.controlWsRef with
    | some _ => { st with controlWsRef := none }
    | none => st
  let st2 :=
    match st1.wsRef with
    | some _ => { st1 with wsRef := none }
    | none => st1
  let st3 :=
    match st2.debounceTimerRef with
    | some _ => { st2 with debounceTimerRef := none }
    | none => st2
  { st3 with status := .disconnected }

/-- Unmount cleanup effect: `sendStopCommand().then(close both refs)`. -/
def unmountCleanup (st : HookState) : HookState :=
  let st1 := sendStopCommand st
  { st1 with controlWsRef := none, wsRef := none }

def realtimeFrame (t : String) : BackendMessage := { type := "realtime", text := some t }

def fullSentenceFrame (t : String) : BackendMessage :=
  { type := "fullSentence", text := some t }

/-- Deliver a list of realtime frames in order. -/
def processRealtimeList : HookState → List String → HookState
  | st, [] => st
  | st, t :: rest => processRealtimeList (onMessage st (some (realtimeFrame t))) rest

/-- Deliver a list of fullSentence frames in order. -/
def processFinalizedList : HookState → List String → HookState
  | st, [] => st
  | st, t :: rest => processFinalizedList (onMessage st (some (fullSentenceFrame t))) rest

/-- Spec-shape formula for the joined transcript: one space before every
sentence, i.e. the string described by the claim as
a space, then s1, then a space, then s2, and so on. -/
def specJoinedTranscript : List String → String
  | [] => ""
  | s :: rest => " " ++ s ++ specJoinedTranscript rest

/-! ## Step lemmas for the message handler -/

/-- Normal form of a finalized ('completed' or 'fullSentence') frame: clear
the timer, append the raw text to both transcript fields, emit iff truthy. -/
theorem onMessage_finalized_eq (st : HookState) (msg : BackendMessage)
    (h : msg.type = "completed" ∨ msg.type = "fullSentence") :
    onMessage st (some msg) =
      { st with
        debounceTimerRef := none
        fullSentences := st.fullSentences ++ [msg.text.getD ""]
        fullTranscript := st.fullTranscript ++ " " ++ msg.text.getD ""
        emissions := st.emissions ++
          (if msg.text.getD "" = "" then [] else [msg.text.getD ""]) } := by
  by_cases he : msg.text.getD "" = "" <;>
    simp [onMessage, h, he]

/-- A realtime frame while a timer is pending only replaces the preview. -/
theorem onMessage_realtime_pending_eq (st : HookState) (u t : String)
    (h : st.debounceTimerRef = some t) :
    onMessage st (some (realtimeFrame u)) = { st with realtimeText := u } := by
  simp only [onMessage, realtimeFrame]
  rw [if_neg (by decide : ¬("realtime" = "completed" ∨ "realtime" = "fullSentence"))]
  simp [h]

/-- A realtime frame with no pending timer and an eligible trimmed text
replaces the preview and arms the timer with the trimmed text. -/
theorem onMessage_realtime_arm_eq (st : HookState) (u : String)
    (h0 : st.debounceTimerRef = none)
    (h1 : (decide ((jsTrim u).length > 0)
      && sentenceTerminators.any (fun p => jsEndsWith (jsTrim u) p)) = true) :
    onMessage st (some (realtimeFrame u)) =
      { st with realtimeText := u, debounceTimerRef := some (jsTrim u) } := by
  simp only [onMessage, realtimeFrame]
  rw [if_neg (by decide : ¬("realtime" = "completed" ∨ "realtime" = "fullSentence"))]
  simp [h0, h1]

/-- Firing a pending timer emits the captured text and clears the ref. -/
theorem debounceTimerFire_pending_eq (st : HookState) (t : String)
    (h : st.debounceTimerRef = some t) :
    debounceTimerFire st =
      { st with emissions := st.emissions ++ [t], debounceTimerRef := none } := by
  simp [debounceTimerFire, h]

/-- Realtime frames delivered while a timer is pending never emit and never
touch the pending timer. -/
theorem processRealtimeList_pending (ts : List String) :
    ∀ (st : HookState) (t : String), st.debounceTimerRef = some t →
      (processRealtimeList st ts).debounceTimerRef = some t ∧
      (processRealtimeList st ts).emissions = st.emissions := by
  induction ts with
  | nil => intro st t h; exact ⟨h, rfl⟩
  | cons u rest ih =>
    intro st t h
    rw [processRealtimeList, onMessage_realtime_pending_eq st u t h]
    exact ih { st with realtimeText := u } t h

/-- The transcript accumulated by a run of fullSentence frames. -/
theorem processFinalizedList_fullTranscript (ss : List String) :
    ∀ st : HookState, (processFinalizedList st ss).fullTranscript
      = st.fullTranscript ++ specJoinedTranscript ss := by
  induction ss with
  | nil => intro st; simp [processFinalizedList, specJoinedTranscript]
  | cons s rest ih =>
    intro st
    rw [processFinalizedList, ih, onMessage_finalized_eq _ _ (Or.inr rfl)]
    simp [specJoinedTranscript, fullSentenceFrame, String.append_assoc]

/-- The sentence list accumulated by a run of fullSentence frames. -/
theorem processFinalizedList_fullSentences (ss : List String) :
    ∀ st : HookState, (processFinalizedList st ss).fullSentences
      = st.fullSentences ++ ss := by
  induction ss with
  | nil => intro st; simp [processFinalizedList]
  | cons s rest ih =>
    intro st
    rw [processFinalizedList, ih, onMessage_finalized_eq _ _ (Or.inr rfl)]
    simp [fullSentenceFrame]

/-! ## Claims -/

theorem string_empty_append (s : String) : "" ++ s = s := by
  apply String.ext
  simp [String.data_append]

/-- C8: a malformed inbound payload (JSON.parse failure, modelled as `none`)
is caught and dropped with the whole state unchanged, and a well-formed
frame whose type is neither 'realtime' nor 'completed'/'fullSentence' is
ignored without any state change or error. -/
theorem c8_malformed_and_unknown_frames_dropped :
    (∀ st : HookState, onMessage st none = st) ∧
    (∀ (st : HookState) (msg : BackendMessage),
      msg.type ≠ "completed" → msg.type ≠ "fullSentence" → msg.type ≠ "realtime" →
      onMessage st (some msg) = st) := by
  refine ⟨fun st => rfl, fun st msg h1 h2 h3 => ?_⟩
  simp [onMessage, h1, h2, h3]

/-- Witness for C8 at a concrete state and a concrete unknown frame type. -/
theorem c8_witness :
    onMessage initialState (some { type := "recording_start", text := some "x" })
      = initialState :=
  c8_malformed_and_unknown_frames_dropped.2 initialState
    { type := "recording_start", text := some "x" }
    (by decide) (by decide) (by decide)

/-- C9: after n ≥ 1 finalized frames with texts s1..sn, the joined
transcript equals one space before each raw sentence, i.e.
a space ++ s1 ++ a space ++ s2 ++ ... ++ a space ++ sn
(`specJoinedTranscript`): every append prefixes exactly one space and never
trims, so the transcript carries a leading space and the raw server text. -/
theorem c9_transcript_shape (ss : List String) (h : ss ≠ []) :
    (processFinalizedList initialState ss).fullTranscript = specJoinedTranscript ss ∧
    (processFinalizedList initialState ss).fullSentences = ss ∧
    ∃ rest, (processFinalizedList initialState ss).fullTranscript = " " ++ rest := by
  have ht : (processFinalizedList initialState ss).fullTranscript
      = specJoinedTranscript ss := by
    rw [processFinalizedList_fullTranscript]
    exact string_empty_append _
  have hs : (processFinalizedList initialState ss).fullSentences = ss := by
    rw [processFinalizedList_fullSentences]
    rfl
  refine ⟨ht, hs, ?_⟩
  match ss, h with
  | s :: rest, _ =>
    exact ⟨s ++ specJoinedTranscript rest, by rw [ht]; simp [specJoinedTranscript,
      String.append_assoc]⟩

/-- Witness for C9 on the two-sentence run with texts "a." and " b ". -/
theorem c9_witness :
    (processFinalizedList initialState ["a.", " b "]).fullTranscript
        = specJoinedTranscript ["a.", " b "] ∧
    (processFinalizedList initialState ["a.", " b "]).fullSentences = ["a.", " b "] ∧
    ∃ rest, (processFinalizedList initialState ["a.", " b "]).fullTranscript
        = " " ++ rest :=
  c9_transcript_shape ["a.", " b "] (by decide)

/-- C10: processing a finalized frame ('completed' or 'fullSentence') never
modifies the live provisional preview `realtimeText`. -/
theorem c10_finalized_preserves_realtime_text (st : HookState) (msg : BackendMessage)
    (h : msg.type = "completed" ∨ msg.type = "fullSentence") :
    (onMessage st (some msg)).realtimeText = st.realtimeText := by
  rw [onMessage_finalized_eq st msg h]

/-- Witness for C10 at a state with a live preview and a concrete frame. -/
theorem c10_witness :
    (onMessage { initialState with realtimeText := "still talking" }
        (some (fullSentenceFrame "Done."))).realtimeText
      = ({ initialState with realtimeText := "still talking" } : HookState).realtimeText :=
  c10_finalized_preserves_realtime_text _ _ (Or.inr rfl)

/-- C1 counterexample: provisional "Hi." arms the timer, the timer fires
(one emission of "Hi."), and a later explicit fullSentence frame with the
same raw text "Hi." is emitted to the callback a second time — the claimed
at-most-once emission per utterance fails. -/
theorem c1_counterexample :
    (onMessage (debounceTimerFire (onMessage initialState (some (realtimeFrame "Hi."))))
        (some (fullSentenceFrame "Hi."))).emissions = ["Hi.", "Hi."] := by
  decide

/-- C1 amended: an explicit finalized frame always clears the pending
synthesized-finalization timer before it can fire; but after a synthesized
timer has fired for text t, the code keeps no record of it, so a later
explicit finalization carrying the same raw text t is emitted to the
callback again — the run fire-then-finalize extends the emissions by
[t, t]. -/
theorem c1_finalization_cancels_timer_but_no_dedup :
    (∀ (st : HookState) (msg : BackendMessage),
      msg.type = "completed" ∨ msg.type = "fullSentence" →
      (onMessage st (some msg)).debounceTimerRef = none) ∧
    (∀ (st : HookState) (t : String), st.debounceTimerRef = some t → t ≠ "" →
      (onMessage (debounceTimerFire st) (some (fullSentenceFrame t))).emissions
        = st.emissions ++ [t, t]) := by
  constructor
  · intro st msg h
    rw [onMessage_finalized_eq st msg h]
  · intro st t hp ht
    rw [debounceTimerFire_pending_eq st t hp,
      onMessage_finalized_eq _ _ (Or.inr rfl)]
    simp [fullSentenceFrame, ht]

/-- Witness for C1 at a concrete finalized frame and a concrete pending
timer. -/
theorem c1_witness :
    (onMessage initialState (some (fullSentenceFrame "x."))).debounceTimerRef = none ∧
    (onMessage (debounceTimerFire { initialState with debounceTimerRef := some "Hi." })
        (some (fullSentenceFrame "Hi."))).emissions
      = ({ initialState with debounceTimerRef := some "Hi." } : HookState).emissions
          ++ ["Hi.", "Hi."] :=
  ⟨c1_finalization_cancels_timer_but_no_dedup.1 initialState _ (Or.inr rfl),
   c1_finalization_cancels_timer_but_no_dedup.2
     { initialState with debounceTimerRef := some "Hi." } "Hi." rfl (by decide)⟩

/-- C2 counterexample: after provisional "Hello there." and a timer fire
with no server finalization, the committed transcript state does NOT
contain "Hello there." — `fullSentences` and `fullTranscript` are untouched
by the synthesized path. -/
theorem c2_counterexample :
    (debounceTimerFire (onMessage initialState
        (some (realtimeFrame "Hello there.")))).fullSentences ≠ ["Hello there."] ∧
    (debounceTimerFire (onMessage initialState
        (some (realtimeFrame "Hello there.")))).fullTranscript ≠ "Hello there." := by
  decide

/-- C2 amended: in the scenario (provisional "Hello there.", then the 750ms
timer fires with no intervening frames) the registered callback is invoked
exactly once with exactly "Hello there." and the timer is cleared, but the
committed transcript state stays empty: the synthesized path only invokes
the callback and never appends to `fullSentences`/`fullTranscript`. -/
theorem c2_hello_there_scenario :
    (debounceTimerFire (onMessage initialState
        (some (realtimeFrame "Hello there.")))).emissions = ["Hello there."] ∧
    (debounceTimerFire (onMessage initialState
        (some (realtimeFrame "Hello there.")))).fullSentences = [] ∧
    (debounceTimerFire (onMessage initialState
        (some (realtimeFrame "Hello there.")))).fullTranscript = "" ∧
    (debounceTimerFire (onMessage initialState
        (some (realtimeFrame "Hello there.")))).debounceTimerRef = none := by
  decide

/-- C3 counterexample: provisional "A." arms the timer; a further
provisional "A. B." arrives before it fires; the fired emission is "A."
(the text captured when the timer was armed), not the trimmed provisional
text "A. B." standing at fire time — the claim's fire-time equality
fails. -/
theorem c3_counterexample :
    (debounceTimerFire (onMessage (onMessage initialState (some (realtimeFrame "A.")))
        (some (realtimeFrame "A. B.")))).emissions = ["A."] ∧
    jsTrim (onMessage (onMessage initialState (some (realtimeFrame "A.")))
        (some (realtimeFrame "A. B."))).realtimeText = "A. B." ∧
    ("A." : String) ≠ "A. B." := by
  decide

/-- C3 amended: for a first provisional frame whose trimmed text t is
non-empty and punctuation-terminated, followed by any further provisional
frames and no explicit finalization, the timer fires exactly once and the
single synthesized emission equals t — the trimmed text captured when the
timer was ARMED, regardless of how the provisional text has changed by
fire time. -/
theorem c3_synthesized_emission_is_arm_time_text (st : HookState) (u : String)
    (ts : List String) (h0 : st.debounceTimerRef = none)
    (h1 : (decide ((jsTrim u).length > 0)
      && sentenceTerminators.any (fun p => jsEndsWith (jsTrim u) p)) = true) :
    (debounceTimerFire (processRealtimeList
        (onMessage st (some (realtimeFrame u))) ts)).emissions
      = st.emissions ++ [jsTrim u] ∧
    (debounceTimerFire (processRealtimeList
        (onMessage st (some (realtimeFrame u))) ts)).debounceTimerRef = none := by
  rw [onMessage_realtime_arm_eq st u h0 h1]
  obtain ⟨hp, he⟩ := processRealtimeList_pending ts
    { st with realtimeText := u, debounceTimerRef := some (jsTrim u) } (jsTrim u) rfl
  rw [debounceTimerFire_pending_eq _ _ hp, he]
  exact ⟨rfl, rfl⟩

/-- Witness for C3: arm on "A.", update to "A. B.", fire. -/
theorem c3_witness :
    (debounceTimerFire (processRealtimeList
        (onMessage initialState (some (realtimeFrame "A."))) ["A. B."])).emissions
      = initialState.emissions ++ [jsTrim "A."] ∧
    (debounceTimerFire (processRealtimeList
        (onMessage initialState (some (realtimeFrame "A."))) ["A. B."])).debounceTimerRef
      = none :=
  c3_synthesized_emission_is_arm_time_text initialState "A." ["A. B."] rfl (by decide)

/-- C4 counterexample: a finalized frame whose text is the whitespace-only
"   " is NOT a no-op — the raw text is appended to `fullSentences` and the
callback is invoked with the raw "   "; and a finalized frame with empty
text still appends "" to `fullSentences` and a bare space to
`fullTranscript`. -/
theorem c4_counterexample :
    (onMessage initialState (some (fullSentenceFrame "   "))).fullSentences = ["   "] ∧
    (onMessage initialState (some (fullSentenceFrame "   "))).emissions = ["   "] ∧
    (onMessage initialState (some (fullSentenceFrame ""))).fullSentences = [""] ∧
    (onMessage initialState (some (fullSentenceFrame ""))).fullTranscript = " " := by
  decide

/-- C4 amended: a finalized frame always appends the raw (untrimmed) text —
`text` defaulted to "" when missing — to `fullSentences`, and appends a
space plus that raw text to `fullTranscript`; the callback is invoked
(synchronously, with the raw text, no normalization) iff the raw text is a
non-empty string, so a whitespace-only sentence is appended and emitted
as-is and only the truly-empty text skips the callback. -/
theorem c4_finalized_append_is_raw (st : HookState) (msg : BackendMessage)
    (h : msg.type = "completed" ∨ msg.type = "fullSentence") :
    (onMessage st (some msg)).fullSentences = st.fullSentences ++ [msg.text.getD ""] ∧
    (onMessage st (some msg)).fullTranscript
      = st.fullTranscript ++ " " ++ msg.text.getD "" ∧
    (onMessage st (some msg)).emissions
      = st.emissions ++ (if msg.text.getD "" = "" then [] else [msg.text.getD ""]) := by
  rw [onMessage_finalized_eq st msg h]
  exact ⟨rfl, rfl, rfl⟩

/-- Witness for C4 at the whitespace-only sentence "   ". -/
theorem c4_witness :
    (onMessage initialState (some (fullSentenceFrame "   "))).fullSentences
      = initialState.fullSentences ++ [(fullSentenceFrame "   ").text.getD ""] ∧
    (onMessage initialState (some (fullSentenceFrame "   "))).fullTranscript
      = initialState.fullTranscript ++ " " ++ (fullSentenceFrame "   ").text.getD "" ∧
    (onMessage initialState (some (fullSentenceFrame "   "))).emissions
      = initialState.emissions ++
        (if (fullSentenceFrame "   ").text.getD "" = "" then []
         else [(fullSentenceFrame "   ").text.getD ""]) :=
  c4_finalized_append_is_raw initialState (fullSentenceFrame "   ") (Or.inr rfl)

/-- C5 counterexample: from a fully connected state whose control socket is
OPEN, `disconnect()` sends nothing on the control connection — the outbound
log stays empty, so no stop command is delivered before closing. -/
theorem c5_counterexample :
    refIsOpen (dataOnOpen (controlOnOpen (connect initialState))).controlWsRef = true ∧
    (dataOnOpen (controlOnOpen (connect initialState))).status = .connected ∧
    (disconnect (dataOnOpen (controlOnOpen (connect initialState)))).sentLog = [] := by
  decide

/-- C5 amended: `disconnect()` closes and nulls both connection handles
regardless of state, synchronously cancels any pending finalization timer,
sets the status to disconnected, and is idempotent — but it sends NO stop
command (its outbound log is unchanged); the stop command, with its ~100ms
grace period, is attempted only by the unmount cleanup effect, and only
when the control socket is OPEN (a failed or closed socket is skipped
silently). -/
theorem c5_disconnect_behavior (st : HookState) :
    disconnect st = { st with wsRef := none
                              controlWsRef := none
                              debounceTimerRef := none
                              status := .disconnected } ∧
    disconnect (disconnect st) = disconnect st ∧
    (disconnect st).sentLog = st.sentLog ∧
    (unmountCleanup st).sentLog
      = st.sentLog ++ (if refIsOpen st.controlWsRef then [stopCommand] else []) := by
  have hd : disconnect st = { st with wsRef := none
                                      controlWsRef := none
                                      debounceTimerRef := none
                                      status := .disconnected } := by
    rcases st with ⟨ws, cws, s, e, rt, fs, ft, dt, em, tst, sl, ni⟩
    cases cws <;> cases ws <;> cases dt <;> rfl
  refine ⟨hd, ?_, ?_, ?_⟩
  · rw [hd]; rfl
  · rw [hd]
  · simp only [unmountCleanup, sendStopCommand]
    split <;> simp

/-- C6 counterexample: `connect()` called while the client is still
connecting (neither socket OPEN yet) is NOT a no-op — it re-enters and
replaces both connection handles with fresh sockets. -/
theorem c6_counterexample :
    (connect initialState).status = .connecting ∧
    connect (connect initialState) ≠ connect initialState := by
  decide

/-- C6 amended: `connect()` is a no-op exactly when one of the sockets is
already OPEN (the connected case); when neither is OPEN — including the
still-connecting case — it sets status to connecting, clears the error,
and opens two new connections, the control one first (consecutive ids),
overwriting both handles. -/
theorem c6_connect_guards (st : HookState) :
    (refIsOpen st.wsRef = true ∨ refIsOpen st.controlWsRef = true → connect st = st) ∧
    (refIsOpen st.wsRef = false → refIsOpen st.controlWsRef = false →
      connect st =
        { st with status := .connecting
                  error := none
                  controlWsRef := some ⟨st.nextId, .CONNECTING, st.status⟩
                  wsRef := some ⟨st.nextId + 1, .CONNECTING, st.status⟩
                  nextId := st.nextId + 2 }) := by
  constructor
  · rintro (h | h) <;> cases hw : refIsOpen st.wsRef <;> simp_all [connect]
  · intro h1 h2
    simp [connect, h1, h2]

/-- Witness for C6: no-op on a connected state; fresh sockets from the
initial state. -/
theorem c6_witness :
    connect (dataOnOpen (connect initialState)) = dataOnOpen (connect initialState) ∧
    connect initialState =
      { initialState with status := .connecting
                          error := none
                          controlWsRef := some ⟨initialState.nextId, .CONNECTING,
                            initialState.status⟩
                          wsRef := some ⟨initialState.nextId + 1, .CONNECTING,
                            initialState.status⟩
                          nextId := initialState.nextId + 2 } :=
  ⟨(c6_connect_guards (dataOnOpen (connect initialState))).1 (Or.inl (by decide)),
   (c6_connect_guards initialState).2 rfl rfl⟩

/-- C7: evaluation of the code at the failing input. After `connect()` from
the disconnected state the status is connecting; the data socket's open
event makes it connected; but a subsequent close event on either
connection leaves the status connected — the close handlers compare the
stale closure-captured status (disconnected, as of the `connect()`
invocation) and skip `setStatus('disconnected')`, contradicting the
intended transition written in that very handler. -/
theorem c7_close_while_connected_keeps_status :
    (connect initialState).status = .connecting ∧
    (dataOnOpen (connect initialState)).status = .connected ∧
    (dataOnClose (dataOnOpen (connect initialState))).status = .connected ∧
    (controlOnClose (dataOnOpen (connect initialState))).status = .connected := by
  decide
